import Mathlib

/-!
Verification of the label-sheet layout engine.

The development shallowly embeds the two application variants:
* the pdf-lib variant (`label_sheet_builder_3_x_11_react_preview.jsx`):
  derived cell geometry, aspect-preserving image fit, bottom-left Y flip,
  flat cell-image array;
* the jsPDF variant (`src/App.jsx`): stored cell sizes, images drawn at the
  full cell rectangle, nested grid state.

Millimetre and point quantities are modelled as rationals; machine floats are
replaced by exact arithmetic, so "within tolerance" properties are proved as
exact identities.
-/

namespace LabelSheet

/-- Settings state of the pdf-lib variant (`defaultSettings` in the source). -/
structure Settings where
  cols : ℕ
  rows : ℕ
  pageWidthMm : ℚ
  pageHeightMm : ℚ
  offsetXmm : ℚ
  offsetYmm : ℚ
  gutterXmm : ℚ
  gutterYmm : ℚ
deriving DecidableEq

/-- `MM_TO_PT = 2.8346456693`, the exact conversion constant of the source. -/
def MM_TO_PT : ℚ := 28346456693 / 10000000000

/-- `mmToPt(mm) = mm * MM_TO_PT`. -/
def mmToPt (mm : ℚ) : ℚ := mm * MM_TO_PT

/-- Result of the `geometry` memo: page size and derived cell size in mm. -/
structure Geometry where
  pageW : ℚ
  pageH : ℚ
  cellW : ℚ
  cellH : ℚ
deriving DecidableEq

/-- The `geometry` computation of the pdf-lib variant:
`gridWidth = w - 2*offsetXmm - (cols-1)*gutterXmm`, `cellWidth = gridWidth/cols`,
and symmetrically for the height.  No validation is performed. -/
def geometry (s : Settings) : Geometry :=
  let w := s.pageWidthMm
  let h := s.pageHeightMm
  let gridWidth := w - 2 * s.offsetXmm - ((s.cols : ℚ) - 1) * s.gutterXmm
  let gridHeight := h - 2 * s.offsetYmm - ((s.rows : ℚ) - 1) * s.gutterYmm
  { pageW := w, pageH := h
    cellW := gridWidth / (s.cols : ℚ)
    cellH := gridHeight / (s.rows : ℚ) }

/-- A cell rectangle in top-down authoring coordinates (mm). -/
structure CellRect where
  x : ℚ
  y : ℚ
  w : ℚ
  h : ℚ
deriving DecidableEq

/-- The per-cell mm bounds computed inside `downloadPdf` before the Y flip:
`xMm = offsetXmm + c*(cellMm.w + gutterXmm)`,
`yMmTop = offsetYmm + r*(cellMm.h + gutterYmm)`. -/
def pdfCellTopDown (s : Settings) (g : Geometry) (r c : ℕ) : CellRect :=
  { x := s.offsetXmm + (c : ℚ) * (g.cellW + s.gutterXmm)
    y := s.offsetYmm + (r : ℚ) * (g.cellH + s.gutterYmm)
    w := g.cellW
    h := g.cellH }

/-- The per-cell mm bounds emitted by `printPage` into the markup
(`left:$\x7bx\x7dmm; top:$\x7by\x7dmm; width/height`), written out from the
print renderer's own formulas. -/
def printCellRect (s : Settings) (r c : ℕ) : CellRect :=
  let g := geometry s
  { x := s.offsetXmm + (c : ℚ) * (g.cellW + s.gutterXmm)
    y := s.offsetYmm + (r : ℚ) * (g.cellH + s.gutterYmm)
    w := g.cellW
    h := g.cellH }

/-- Row-major enumeration of grid positions, as produced by the nested
`for (r) for (c)` loops of both renderers. -/
def cellIndices (s : Settings) : List (ℕ × ℕ) :=
  (List.range s.rows).flatMap (fun r => (List.range s.cols).map (fun c => (r, c)))

/-- The list of top-down cell rectangles in renderer iteration order. -/
def pdfCellList (s : Settings) : List CellRect :=
  (cellIndices s).map (fun rc => pdfCellTopDown s (geometry s) rc.1 rc.2)

/-- The `defaultSettings` constant of the pdf-lib variant. -/
def defaultSettings : Settings :=
  { cols := 3, rows := 11, pageWidthMm := 210, pageHeightMm := 297
    offsetXmm := 8, offsetYmm := 12, gutterXmm := 3, gutterYmm := 3 }

/-- An embedded image as pdf-lib reports it: intrinsic width and height. -/
structure PdfImg where
  width : ℚ
  height : ℚ
deriving DecidableEq

/-- Fitted image placement: the draw rectangle inside a cell. -/
structure Placement where
  dx : ℚ
  dy : ℚ
  drawW : ℚ
  drawH : ℚ
deriving DecidableEq

/-- The image-fit computation of `downloadPdf`:
`scale = min(maxW/imgW, maxH/imgH)`, `drawW = imgW*scale`, `drawH = imgH*scale`,
`dx = rectX + (rectW - drawW)/2`, `dy = rectY + (rectH - drawH)/2`. -/
def fitImage (rectX rectY rectW rectH imgW imgH : ℚ) : Placement :=
  let scale := min (rectW / imgW) (rectH / imgH)
  let drawW := imgW * scale
  let drawH := imgH * scale
  { dx := rectX + (rectW - drawW) / 2
    dy := rectY + (rectH - drawH) / 2
    drawW := drawW
    drawH := drawH }

/-- A draw call issued to the PDF page: a border rectangle or an image. -/
inductive DrawOp
  | border (x y w h : ℚ)
  | image (x y w h : ℚ)
deriving DecidableEq

/-- One iteration of the `downloadPdf` cell loop: compute the mm bounds, flip
Y (`yMmFromBottom = pageHeightMm - yMmTop - cellMm.h`), convert to points,
draw the border, and if content is present embed the image (an embedding
failure raises, aborting the surrounding computation) and draw it at its
fitted placement. -/
def renderCell {F E : Type} (s : Settings) (g : Geometry)
    (embed : F → Except E PdfImg) (item : Option F) (r c : ℕ) :
    Except E (List DrawOp) :=
  let xMm := s.offsetXmm + (c : ℚ) * (g.cellW + s.gutterXmm)
  let yMmTop := s.offsetYmm + (r : ℚ) * (g.cellH + s.gutterYmm)
  let yMmFromBottom := s.pageHeightMm - yMmTop - g.cellH
  let rectX := mmToPt xMm
  let rectY := mmToPt yMmFromBottom
  let rectW := mmToPt g.cellW
  let rectH := mmToPt g.cellH
  let borderOp := DrawOp.border rectX rectY rectW rectH
  match item with
  | none => .ok [borderOp]
  | some f =>
      match embed f with
      | .error e => .error e
      | .ok img =>
          let p := fitImage rectX rectY rectW rectH img.width img.height
          .ok [borderOp, DrawOp.image p.dx p.dy p.drawW p.drawH]

/-- The nested cell loop of `downloadPdf`, with JS exception semantics: the
first embedding failure aborts the whole loop. -/
def renderLoop {F E : Type} (s : Settings) (g : Geometry)
    (embed : F → Except E PdfImg) (snap : List (Option F)) :
    List (ℕ × ℕ) → Except E (List DrawOp)
  | [] => .ok []
  | rc :: rest =>
      match renderCell s g embed ((snap.get? (rc.1 * s.cols + rc.2)).join) rc.1 rc.2 with
      | .error e => .error e
      | .ok ops =>
          match renderLoop s g embed snap rest with
          | .error e => .error e
          | .ok tail => .ok (ops ++ tail)

/-- `downloadPdf` restricted to its draw calls: walk the cells in row-major
order over the flat `cellImages` snapshot. -/
def renderPdf {F E : Type} (s : Settings) (snap : List (Option F))
    (embed : F → Except E PdfImg) : Except E (List DrawOp) :=
  renderLoop s (geometry s) embed snap (cellIndices s)

/-! ### Cell store -/

/-- A loaded cell image of the pdf-lib variant:
`\x7b file, url, name, type \x7d`.  Only the object URL matters for the
resource contract, so the other fields are reduced to an identifier. -/
structure CellItem where
  url : String
  fileId : ℕ
deriving DecidableEq

/-- The `totalCells` effect of the pdf-lib variant: allocate
`Array(totalCells).fill(null)` and copy `prev[i]` for
`i < min(prev.length, next.length)` — preservation is by flat index. -/
def resizeFlat {α : Type} (prev : List (Option α)) (total : ℕ) : List (Option α) :=
  (List.range total).map (fun i => (prev.get? i).getD none)

/-- The rows/cols effect of the jsPDF variant: rebuild a `newRows × newCols`
nested array keeping `grid[r][c]` when it exists and is non-null. -/
def resizeGrid {α : Type} (g : List (List (Option α))) (newRows newCols : ℕ) :
    List (List (Option α)) :=
  (List.range newRows).map (fun r =>
    (List.range newCols).map (fun c =>
      ((g.get? r).bind (fun row => row.get? c)).join))

/-- `clearCell(index)` of the pdf-lib variant: revoke the entry's object URL
when the entry is present with a truthy `url`, and null the slot.  The second
component records the URLs revoked by the call. -/
def clearCell (state : List (Option CellItem)) (i : ℕ) :
    List (Option CellItem) × List String :=
  let item := (state.get? i).join
  let revoked :=
    match item with
    | some it => if it.url = "" then [] else [it.url]
    | none => []
  (state.set i none, revoked)

/-! ### MIME-type dispatch -/

/-- JS `String.prototype.includes` on character lists. -/
def containsSub : List Char → List Char → Bool
  | sub, [] => sub.isEmpty
  | sub, a :: t => sub.isPrefixOf (a :: t) || containsSub sub t

/-- `s.includes(sub)` for strings. -/
def strIncludes (s sub : String) : Bool := containsSub sub.toList s.toList

/-- JS `String.prototype.toLowerCase`, applied per character. -/
def lowerStr (s : String) : String := String.mk (s.data.map Char.toLower)

/-- Which pdf-lib embedding call is used. -/
inductive EmbedKind
  | png
  | jpg
deriving DecidableEq

/-- The dispatch of `getEmbed` in the pdf-lib variant:
`file.type?.includes("png")` selects `embedPng`, anything else (including a
missing type) falls through to `embedJpg`. -/
def getEmbedKind (fileType : Option String) : EmbedKind :=
  if (fileType.map (fun t => strIncludes t "png")).getD false then .png else .jpg

/-- The format selection of `generatePDF` in the jsPDF variant: start from
`"PNG"` and switch to `"JPEG"` when the lower-cased data URL contains
`"jpeg"` or `"jpg"`. -/
def jsAddImageFormat (dataUrl : String) : EmbedKind :=
  if strIncludes (lowerStr dataUrl) "jpeg" || strIncludes (lowerStr dataUrl) "jpg" then
    .jpg
  else
    .png

/-! ### jsPDF variant geometry -/

/-- Settings state of the jsPDF variant (stored cell sizes, no derivation). -/
structure JsSettings where
  pageWidth : ℚ
  pageHeight : ℚ
  offsetX : ℚ
  offsetY : ℚ
  rowSpacing : ℚ
  colSpacing : ℚ
  cellWidth : ℚ
  cellHeight : ℚ
deriving DecidableEq

/-- The jsPDF variant's default settings object. -/
def jsDefaultSettings : JsSettings :=
  { pageWidth := 210, pageHeight := 297, offsetX := 10, offsetY := 10
    rowSpacing := 2, colSpacing := 2, cellWidth := 51, cellHeight := 21 }

/-- The cell rectangle of the jsPDF variant's preview and renderer:
`left = offsetX + c*(cellWidth + colSpacing)`,
`top = offsetY + r*(cellHeight + rowSpacing)`. -/
def jsCellRect (t : JsSettings) (r c : ℕ) : CellRect :=
  { x := t.offsetX + (c : ℚ) * (t.cellWidth + t.colSpacing)
    y := t.offsetY + (r : ℚ) * (t.cellHeight + t.rowSpacing)
    w := t.cellWidth
    h := t.cellHeight }

/-- The rectangle passed to `doc.addImage` in `generatePDF`: the image is
drawn at the full stored cell size, with no aspect-ratio fit. -/
def jsImageDrawRect (t : JsSettings) (r c : ℕ) : CellRect :=
  { x := t.offsetX + (c : ℚ) * (t.cellWidth + t.colSpacing)
    y := t.offsetY + (r : ℚ) * (t.cellHeight + t.rowSpacing)
    w := t.cellWidth
    h := t.cellHeight }

/-! ### Helper lemmas -/

theorem flatMap_range_map_get {α : Type} (n : ℕ) (f : ℕ → ℕ → α) :
    ∀ (m start r c : ℕ), r < m → c < n →
      ((List.range' start m).flatMap (fun i => (List.range n).map (f i))).get? (r * n + c)
        = some (f (start + r) c)
  | 0, _, r, _, hr, _ => absurd hr (Nat.not_lt_zero r)
  | m + 1, start, r, c, hr, hc => by
      rw [List.range'_succ, List.flatMap_cons]
      cases r with
      | zero =>
          rw [List.get?_append (by simpa using hc)]
          rw [List.get?_map, show 0 * n + c = c from by omega, List.get?_range hc]
          simp
      | succ s =>
          have hidx : (s + 1) * n + c = n + (s * n + c) := by ring
          have hlen : ((List.range n).map (f start)).length = n := by simp
          rw [hidx, List.get?_append_right (by omega)]
          rw [hlen, Nat.add_sub_cancel_left]
          have ih := flatMap_range_map_get n f m (start + 1) s c (by omega) hc
          rw [ih]
          congr 2
          omega

theorem cellIndices_get? (s : Settings) {r c : ℕ} (hr : r < s.rows) (hc : c < s.cols) :
    (cellIndices s).get? (r * s.cols + c) = some (r, c) := by
  unfold cellIndices
  rw [List.range_eq_range']
  simpa using flatMap_range_map_get s.cols (fun r c => (r, c)) s.rows 0 r c hr hc

theorem cellIndices_length (s : Settings) : (cellIndices s).length = s.rows * s.cols := by
  simp [cellIndices, List.length_flatMap, Function.comp_def, List.map_const',
    List.sum_replicate, smul_eq_mul]

theorem mem_cellIndices {s : Settings} {r c : ℕ} :
    (r, c) ∈ cellIndices s ↔ r < s.rows ∧ c < s.cols := by
  simp [cellIndices, List.mem_flatMap, List.mem_range]

theorem renderLoop_empty_snap {F E : Type} (s : Settings) (g : Geometry)
    (embed : F → Except E PdfImg) :
    ∀ l : List (ℕ × ℕ), ∃ ops,
      renderLoop s g embed ([] : List (Option F)) l = .ok ops ∧ ops.length = l.length
  | [] => ⟨[], rfl, rfl⟩
  | rc :: rest => by
      obtain ⟨ops, hok, hlen⟩ := renderLoop_empty_snap s g embed rest
      have hcell : renderCell s g embed
          ((([] : List (Option F)).get? (rc.1 * s.cols + rc.2)).join) rc.1 rc.2
          = .ok [DrawOp.border
              (mmToPt (s.offsetXmm + (rc.2 : ℚ) * (g.cellW + s.gutterXmm)))
              (mmToPt (s.pageHeightMm
                - (s.offsetYmm + (rc.1 : ℚ) * (g.cellH + s.gutterYmm)) - g.cellH))
              (mmToPt g.cellW) (mmToPt g.cellH)] := rfl
      refine ⟨DrawOp.border
          (mmToPt (s.offsetXmm + (rc.2 : ℚ) * (g.cellW + s.gutterXmm)))
          (mmToPt (s.pageHeightMm
            - (s.offsetYmm + (rc.1 : ℚ) * (g.cellH + s.gutterYmm)) - g.cellH))
          (mmToPt g.cellW) (mmToPt g.cellH) :: ops, ?_, ?_⟩
      · rw [renderLoop, hcell, hok]
        rfl
      · simp [hlen]

theorem renderLoop_ok_embed {F E : Type} (s : Settings) (g : Geometry)
    (embed : F → Except E PdfImg) (snap : List (Option F)) :
    ∀ (l : List (ℕ × ℕ)) (ops : List DrawOp),
      renderLoop s g embed snap l = .ok ops →
      ∀ rc ∈ l, ∀ f, (snap.get? (rc.1 * s.cols + rc.2)).join = some f →
        ∃ img, embed f = .ok img
  | [], _, _, rc, hmem, _, _ => absurd hmem (List.not_mem_nil rc)
  | rc0 :: rest, ops, hok, rc, hmem, f, hf => by
      rw [renderLoop] at hok
      cases h1 : renderCell s g embed ((snap.get? (rc0.1 * s.cols + rc0.2)).join)
          rc0.1 rc0.2 with
      | error e => rw [h1] at hok; exact absurd hok (by simp)
      | ok ops1 =>
          cases h2 : renderLoop s g embed snap rest with
          | error e => rw [h1, h2] at hok; exact absurd hok (by simp)
          | ok tail =>
              rcases List.mem_cons.mp hmem with hrc | hrc
              · subst hrc
                rw [hf] at h1
                rw [renderCell] at h1
                cases h3 : embed f with
                | error e => rw [h3] at h1; exact absurd h1 (by simp)
                | ok img => exact ⟨img, rfl⟩
              · exact renderLoop_ok_embed s g embed snap rest tail h2 rc hrc f hf

theorem geometry_cellW (s : Settings) :
    (geometry s).cellW
      = (s.pageWidthMm - 2 * s.offsetXmm - ((s.cols : ℚ) - 1) * s.gutterXmm) / (s.cols : ℚ) :=
  rfl

theorem geometry_cellH (s : Settings) :
    (geometry s).cellH
      = (s.pageHeightMm - 2 * s.offsetYmm - ((s.rows : ℚ) - 1) * s.gutterYmm) / (s.rows : ℚ) :=
  rfl

/-! ### Claims -/

/-- Claim C1: for every configuration with at least one row and column, the
cell at row `r`, column `c` sits at
`xMm = marginXmm + c*(cellWidthMm + gutterXmm)` and
`yMm = marginYmm + r*(cellHeightMm + gutterYmm)` in top-down coordinates, and
the row-major enumeration puts it at flattened index `r * columns + c` of the
`rows * columns` cell list. -/
theorem c1_cell_position_row_major (s : Settings) (r c : ℕ)
    (hr : r < s.rows) (hc : c < s.cols) :
    (pdfCellList s).get? (r * s.cols + c)
      = some (CellRect.mk
          (s.offsetXmm + (c : ℚ) * ((geometry s).cellW + s.gutterXmm))
          (s.offsetYmm + (r : ℚ) * ((geometry s).cellH + s.gutterYmm))
          ((geometry s).cellW) ((geometry s).cellH)) ∧
    (pdfCellList s).length = s.rows * s.cols := by
  constructor
  · unfold pdfCellList
    rw [List.get?_map, cellIndices_get? s hr hc]
    rfl
  · simp [pdfCellList, cellIndices_length]

/-- Witness for C1 at the default 3×11 settings, cell (1, 2). -/
theorem c1_cell_position_row_major_witness :
    (pdfCellList defaultSettings).get? (1 * defaultSettings.cols + 2)
      = some (CellRect.mk
          (defaultSettings.offsetXmm
            + (2 : ℚ) * ((geometry defaultSettings).cellW + defaultSettings.gutterXmm))
          (defaultSettings.offsetYmm
            + (1 : ℚ) * ((geometry defaultSettings).cellH + defaultSettings.gutterYmm))
          ((geometry defaultSettings).cellW) ((geometry defaultSettings).cellH)) ∧
    (pdfCellList defaultSettings).length = defaultSettings.rows * defaultSettings.cols :=
  c1_cell_position_row_major defaultSettings 1 2 (by decide) (by decide)

/-- Claim C2: the derived cell sizes tile the page exactly:
`cellWidthMm*columns + (columns-1)*gutterXmm + 2*marginXmm = pageWidthMm`, and
symmetrically for the height (proved as an exact rational identity, which is
stronger than the stated 1e-6 tolerance). -/
theorem c2_cell_size_roundtrip (s : Settings) (hc : 1 ≤ s.cols) (hr : 1 ≤ s.rows) :
    (geometry s).cellW * (s.cols : ℚ) + ((s.cols : ℚ) - 1) * s.gutterXmm
        + 2 * s.offsetXmm = s.pageWidthMm ∧
    (geometry s).cellH * (s.rows : ℚ) + ((s.rows : ℚ) - 1) * s.gutterYmm
        + 2 * s.offsetYmm = s.pageHeightMm := by
  have hc0 : (s.cols : ℚ) ≠ 0 := Nat.cast_ne_zero.mpr (by omega)
  have hr0 : (s.rows : ℚ) ≠ 0 := Nat.cast_ne_zero.mpr (by omega)
  constructor
  · rw [geometry_cellW]
    field_simp
  · rw [geometry_cellH]
    field_simp

/-- Witness for C2 at the default settings. -/
theorem c2_cell_size_roundtrip_witness :
    (1 ≤ defaultSettings.cols ∧ 1 ≤ defaultSettings.rows) ∧
    ((geometry defaultSettings).cellW * (defaultSettings.cols : ℚ)
        + ((defaultSettings.cols : ℚ) - 1) * defaultSettings.gutterXmm
        + 2 * defaultSettings.offsetXmm = defaultSettings.pageWidthMm ∧
      (geometry defaultSettings).cellH * (defaultSettings.rows : ℚ)
        + ((defaultSettings.rows : ℚ) - 1) * defaultSettings.gutterYmm
        + 2 * defaultSettings.offsetYmm = defaultSettings.pageHeightMm) :=
  ⟨⟨by decide, by decide⟩, c2_cell_size_roundtrip defaultSettings (by decide) (by decide)⟩

/-- The image sizing of the markup emitted by `printPage`: its stylesheet
gives every cell image `max-width: 100%; max-height: 100%` inside a
flex-centered cell, so the rendered image keeps its aspect ratio, is scaled
by `min(1, cell.w/imgW, cell.h/imgH)` — shrink-only, never upscaled — and is
centered in the cell.  Sizes are compared in the cell's unit space, the
reading most favourable to renderer equivalence. -/
def printImgPlacement (rectX rectY rectW rectH imgW imgH : ℚ) : Placement :=
  let scale := min 1 (min (rectW / imgW) (rectH / imgH))
  let drawW := imgW * scale
  let drawH := imgH * scale
  { dx := rectX + (rectW - drawW) / 2
    dy := rectY + (rectH - drawH) / 2
    drawW := drawW
    drawH := drawH }

/-- Claim C5 counterexample: the renderers do not compute identical image
placements.  In a 62×23 cell a small 10×10 image is upscaled by the PDF
renderer's fit (`scale = min(62/10, 23/10) = 2.3`) to a 23×23 draw, while the
shrink-only print markup renders it at its intrinsic 10×10. -/
theorem c5_placement_counterexample :
    (printImgPlacement 0 0 62 23 10 10).drawW = 10 ∧
    (fitImage 0 0 62 23 10 10).drawW = 23 ∧
    (printImgPlacement 0 0 62 23 10 10).drawW ≠ (fitImage 0 0 62 23 10 10).drawW := by
  refine ⟨?_, ?_, ?_⟩ <;> norm_num [printImgPlacement, fitImage, min_def]

/-- Claim C5 (amended): for every configuration and (row, column) the print
renderer's top-down cell bounds equal the PDF renderer's cell bounds before
the Y flip exactly.  The image placements, however, are computed identically
only when the fit scale `min(cell.w/imgW, cell.h/imgH)` is at most 1: in
that case the shrink-only print sizing agrees with the PDF fit, but when the
cell strictly exceeds the image in both axes the print renderer keeps the
intrinsic image size while the PDF renderer upscales to a strictly larger
draw. -/
theorem c5_print_pdf_bounds_eq_fit_divergence (s : Settings) (r c : ℕ)
    (x y w h iw ih : ℚ) (hiw : 0 < iw) (hih : 0 < ih) :
    printCellRect s r c = pdfCellTopDown s (geometry s) r c ∧
    (min (w / iw) (h / ih) ≤ 1 →
      printImgPlacement x y w h iw ih = fitImage x y w h iw ih) ∧
    (1 < min (w / iw) (h / ih) →
      (printImgPlacement x y w h iw ih).drawW = iw ∧
      (printImgPlacement x y w h iw ih).drawH = ih ∧
      (printImgPlacement x y w h iw ih).drawW < (fitImage x y w h iw ih).drawW) := by
  refine ⟨rfl, ?_, ?_⟩
  · intro hle
    simp [printImgPlacement, fitImage, min_eq_right hle]
  · intro hgt
    have h1 : min 1 (min (w / iw) (h / ih)) = 1 := min_eq_left (le_of_lt hgt)
    refine ⟨?_, ?_, ?_⟩
    · show iw * min 1 (min (w / iw) (h / ih)) = iw
      rw [h1, mul_one]
    · show ih * min 1 (min (w / iw) (h / ih)) = ih
      rw [h1, mul_one]
    · show iw * min 1 (min (w / iw) (h / ih)) < iw * min (w / iw) (h / ih)
      rw [h1, mul_one]
      exact lt_mul_of_one_lt_right hiw hgt

/-- Witness for the amended C5 at the default settings with a 62×23 cell and
a 10×10 image (the divergent branch applies: 1 < min(62/10, 23/10)). -/
theorem c5_print_pdf_bounds_eq_fit_divergence_witness :
    printCellRect defaultSettings 0 0
        = pdfCellTopDown defaultSettings (geometry defaultSettings) 0 0 ∧
    (min ((62 : ℚ) / 10) (23 / 10) ≤ 1 →
      printImgPlacement 0 0 62 23 10 10 = fitImage 0 0 62 23 10 10) ∧
    (1 < min ((62 : ℚ) / 10) (23 / 10) →
      (printImgPlacement 0 0 62 23 10 10).drawW = 10 ∧
      (printImgPlacement 0 0 62 23 10 10).drawH = 10 ∧
      (printImgPlacement 0 0 62 23 10 10).drawW < (fitImage 0 0 62 23 10 10).drawW) :=
  c5_print_pdf_bounds_eq_fit_divergence defaultSettings 0 0 0 0 62 23 10 10
    (by norm_num) (by norm_num)

/-- Claim C4: the PDF renderer converts the top-down cell position to
bottom-left-origin coordinates as
`yMmFromBottom = pageHeightMm − yMmTop − cellHeightMm`; the flip happens in
the render call only, while the top-down cell rectangle itself keeps
`y = marginYmm + r*(cellHeightMm + gutterYmm)` with no flip baked in. -/
theorem c4_y_flip_once_at_render_boundary {F E : Type} (s : Settings)
    (embed : F → Except E PdfImg) (r c : ℕ) :
    renderCell s (geometry s) embed none r c
      = .ok [DrawOp.border
          (mmToPt (pdfCellTopDown s (geometry s) r c).x)
          (mmToPt (s.pageHeightMm - (pdfCellTopDown s (geometry s) r c).y
            - (pdfCellTopDown s (geometry s) r c).h))
          (mmToPt (geometry s).cellW) (mmToPt (geometry s).cellH)] ∧
    (pdfCellTopDown s (geometry s) r c).y
      = s.offsetYmm + (r : ℚ) * ((geometry s).cellH + s.gutterYmm) :=
  ⟨rfl, rfl⟩

/-- Claim C3 counterexample: the jsPDF variant draws every image stretched to
the full stored cell rectangle (51 mm × 21 mm by default), so for a square
100×100 image the drawn width/height ratio 51/21 differs from the image ratio
1 by far more than the 1e-6 tolerance — the placement is not the uniform
scale-to-fit the claim asserts. -/
theorem c3_fit_counterexample :
    (1 : ℚ) / 1000000 <
      (jsImageDrawRect jsDefaultSettings 0 0).w / (jsImageDrawRect jsDefaultSettings 0 0).h
        - (100 : ℚ) / 100 := by
  norm_num [jsImageDrawRect, jsDefaultSettings]

/-- Claim C3 (amended): the pdf-lib renderer's fit uses the uniform scale
`min(cell.w/imgW, cell.h/imgH)`: the draw size never exceeds the cell in
either axis, the aspect ratio is preserved exactly, and the drawn rectangle
is centered (equal gaps on both sides of each axis).  The jsPDF variant
instead draws the image over the whole cell rectangle, with no
aspect-preserving fit. -/
theorem c3_fit_bounds_aspect_centered (x y w h iw ih : ℚ)
    (hw : 0 < w) (hh : 0 < h) (hiw : 0 < iw) (hih : 0 < ih)
    (t : JsSettings) (r c : ℕ) :
    ((fitImage x y w h iw ih).drawW ≤ w ∧
      (fitImage x y w h iw ih).drawH ≤ h ∧
      (fitImage x y w h iw ih).drawW * ih = (fitImage x y w h iw ih).drawH * iw ∧
      (fitImage x y w h iw ih).dx - x
        = (x + w) - ((fitImage x y w h iw ih).dx + (fitImage x y w h iw ih).drawW) ∧
      (fitImage x y w h iw ih).dy - y
        = (y + h) - ((fitImage x y w h iw ih).dy + (fitImage x y w h iw ih).drawH)) ∧
    jsImageDrawRect t r c = jsCellRect t r c := by
  have hiw0 : iw ≠ 0 := ne_of_gt hiw
  have hih0 : ih ≠ 0 := ne_of_gt hih
  refine ⟨⟨?_, ?_, ?_, ?_, ?_⟩, rfl⟩
  · show iw * min (w / iw) (h / ih) ≤ w
    calc iw * min (w / iw) (h / ih) ≤ iw * (w / iw) :=
          mul_le_mul_of_nonneg_left (min_le_left _ _) (le_of_lt hiw)
      _ = w := by rw [mul_comm, div_mul_cancel₀ _ hiw0]
  · show ih * min (w / iw) (h / ih) ≤ h
    calc ih * min (w / iw) (h / ih) ≤ ih * (h / ih) :=
          mul_le_mul_of_nonneg_left (min_le_right _ _) (le_of_lt hih)
      _ = h := by rw [mul_comm, div_mul_cancel₀ _ hih0]
  · show (iw * min (w / iw) (h / ih)) * ih = (ih * min (w / iw) (h / ih)) * iw
    ring
  · show (x + (w - iw * min (w / iw) (h / ih)) / 2) - x
        = (x + w) - ((x + (w - iw * min (w / iw) (h / ih)) / 2) + iw * min (w / iw) (h / ih))
    ring
  · show (y + (h - ih * min (w / iw) (h / ih)) / 2) - y
        = (y + h) - ((y + (h - ih * min (w / iw) (h / ih)) / 2) + ih * min (w / iw) (h / ih))
    ring

/-- Witness for the amended C3: a 4:1 image in a 3×2 cell at the origin. -/
theorem c3_fit_bounds_aspect_centered_witness :
    ((fitImage 0 0 3 2 4 1).drawW ≤ 3 ∧
      (fitImage 0 0 3 2 4 1).drawH ≤ 2 ∧
      (fitImage 0 0 3 2 4 1).drawW * 1 = (fitImage 0 0 3 2 4 1).drawH * 4 ∧
      (fitImage 0 0 3 2 4 1).dx - 0
        = (0 + 3) - ((fitImage 0 0 3 2 4 1).dx + (fitImage 0 0 3 2 4 1).drawW) ∧
      (fitImage 0 0 3 2 4 1).dy - 0
        = (0 + 2) - ((fitImage 0 0 3 2 4 1).dy + (fitImage 0 0 3 2 4 1).drawH)) ∧
    jsImageDrawRect jsDefaultSettings 0 0 = jsCellRect jsDefaultSettings 0 0 :=
  c3_fit_bounds_aspect_centered 0 0 3 2 4 1 (by norm_num) (by norm_num) (by norm_num)
    (by norm_num) jsDefaultSettings 0 0

/-- Settings whose derived cell width is negative: a 210 mm page with a
110 mm grid offset leaves `cellWidth = (210 − 220 − 6)/3 = −16/3`. -/
def badSettings : Settings :=
  { cols := 3, rows := 11, pageWidthMm := 210, pageHeightMm := 297
    offsetXmm := 110, offsetYmm := 12, gutterXmm := 3, gutterYmm := 3 }

/-- An embedding stub that always succeeds, for renders of empty snapshots. -/
def trivialEmbed : Unit → Except Unit PdfImg := fun _ => .ok ⟨1, 1⟩

/-- Claim C6 counterexample: at `badSettings` the derived cell width is
negative, yet `geometry` reports no error and the PDF renderer still
produces draw output (one border per cell) — nothing fails before per-cell
drawing. -/
theorem c6_no_validation_counterexample :
    (geometry badSettings).cellW < 0 ∧
    ∃ ops, renderPdf badSettings ([] : List (Option Unit)) trivialEmbed = .ok ops ∧
      ops ≠ [] := by
  constructor
  · rw [geometry_cellW]
    norm_num [badSettings]
  · obtain ⟨ops, hok, hlen⟩ :=
      renderLoop_empty_snap badSettings (geometry badSettings) trivialEmbed
        (cellIndices badSettings)
    refine ⟨ops, hok, ?_⟩
    intro hnil
    rw [hnil] at hlen
    rw [cellIndices_length] at hlen
    exact absurd hlen.symm (by decide)

/-- Claim C6 (amended): the source performs no configuration validation:
even when the derived cell width or height is non-positive, the geometry
computation succeeds and the renderer draws all `rows * columns` cell
borders unconditionally — no `GeometryError` exists and rendering is never
blocked. -/
theorem c6_render_proceeds_on_nonpositive_cell (s : Settings) {F E : Type}
    (embed : F → Except E PdfImg)
    (hbad : (geometry s).cellW ≤ 0 ∨ (geometry s).cellH ≤ 0) :
    ∃ ops, renderPdf s ([] : List (Option F)) embed = .ok ops ∧
      ops.length = s.rows * s.cols := by
  obtain ⟨ops, hok, hlen⟩ :=
    renderLoop_empty_snap s (geometry s) embed (cellIndices s)
  exact ⟨ops, hok, by rw [hlen, cellIndices_length]⟩

/-- Witness for the amended C6 at `badSettings`. -/
theorem c6_render_proceeds_on_nonpositive_cell_witness :
    ∃ ops, renderPdf badSettings ([] : List (Option Unit)) trivialEmbed = .ok ops ∧
      ops.length = badSettings.rows * badSettings.cols :=
  c6_render_proceeds_on_nonpositive_cell badSettings trivialEmbed
    (Or.inl (by rw [geometry_cellW]; norm_num [badSettings]))

/-- A 2×2 flat store with content at (row 1, col 0), i.e. flat index `1*2+0`. -/
def prevStore2x2 : List (Option ℕ) := [none, none, some 7, none]

/-- Claim C7 counterexample: the pdf-lib variant's resize copies by flat
index.  Resizing the 2×2 store with content at (1,0) to 2×3 leaves the
new (1,0) slot — flat index `1*3+0 = 3` — empty, although (1,0) lies within
both the old and the new bounds: content is not kept at its (row, col)
address when the column count changes. -/
theorem c7_resize_counterexample :
    prevStore2x2.get? (1 * 2 + 0) = some (some 7) ∧
    (resizeFlat prevStore2x2 (2 * 3)).get? (1 * 3 + 0) = some none := by
  decide

/-- An 11×3 nested store with content at (0,0) and (10,2). -/
def store11x3 : List (List (Option ℕ)) :=
  [some 1, none, none] :: (List.replicate 9 [none, none, none] ++ [[none, none, some 2]])

/-- The same 11×3 store flattened (flat indices 0 and 32). -/
def store11x3flat : List (Option ℕ) :=
  some 1 :: (List.replicate 31 none ++ [some 2])

/-- Claim C7 (amended): the jsPDF variant's nested-grid resize preserves
content by (row, col): each surviving address holds the old entry when the
address was populated and is empty otherwise, and the result has exactly
`newRows` rows of `newCols` columns (entries out of the new bounds are
dropped).  The pdf-lib variant's flat resize instead preserves content by
flattened index `i < newTotal`, which coincides with (row, col) preservation
only while the column count is unchanged. -/
theorem c7_resize_preserves_surviving_cells {α : Type}
    (g : List (List (Option α))) (newRows newCols r c : ℕ)
    (hr : r < newRows) (hc : c < newCols)
    (prev : List (Option α)) (total i : ℕ) (hi : i < total) :
    ((resizeGrid g newRows newCols).get? r).bind (fun row => row.get? c)
        = some (((g.get? r).bind (fun row => row.get? c)).join) ∧
    (resizeGrid g newRows newCols).length = newRows ∧
    (∀ row ∈ resizeGrid g newRows newCols, row.length = newCols) ∧
    (resizeFlat prev total).get? i = some ((prev.get? i).getD none) := by
  refine ⟨?_, ?_, ?_, ?_⟩
  · simp [resizeGrid, List.getElem?_range hr, List.getElem?_range hc]
  · simp [resizeGrid]
  · intro row hrow
    simp only [resizeGrid, List.mem_map] at hrow
    obtain ⟨a, _, hrow⟩ := hrow
    rw [← hrow]
    simp
  · simp [resizeFlat, List.getElem?_range hi]

/-- Witness for the amended C7: the 11×3 store resized to 5×3 retains the
content at (0,0); flat index 0 is likewise retained by the flat resize. -/
theorem c7_resize_preserves_surviving_cells_witness :
    ((resizeGrid store11x3 5 3).get? 0).bind (fun row => row.get? 0)
        = some (((store11x3.get? 0).bind (fun row => row.get? 0)).join) ∧
    (resizeGrid store11x3 5 3).length = 5 ∧
    (∀ row ∈ resizeGrid store11x3 5 3, row.length = 3) ∧
    (resizeFlat store11x3flat (5 * 3)).get? 0
      = some ((store11x3flat.get? 0).getD none) :=
  c7_resize_preserves_surviving_cells store11x3 5 3 0 0 (by decide) (by decide)
    store11x3flat (5 * 3) 0 (by decide)

/-- A 1×2 configuration for small render scenarios. -/
def smallSettings : Settings :=
  { cols := 2, rows := 1, pageWidthMm := 210, pageHeightMm := 297
    offsetXmm := 8, offsetYmm := 12, gutterXmm := 3, gutterYmm := 3 }

/-- An embedding in which file 0 fails to embed and every other file
succeeds. -/
def embedFailsOnZero : ℕ → Except Unit PdfImg :=
  fun n => if n = 0 then .error () else .ok ⟨1, 1⟩

/-- Claim C8 counterexample: with two filled cells whose first image fails to
embed and whose second embeds fine, `downloadPdf` has no per-cell error
handling — the exception aborts the whole render, producing no document and
no list of failed cells, instead of continuing with the remaining cell. -/
theorem c8_abort_counterexample :
    renderPdf smallSettings [some 0, some 1] embedFailsOnZero = .error () ∧
    embedFailsOnZero 1 = .ok ⟨1, 1⟩ :=
  ⟨rfl, rfl⟩

/-- Claim C8 (amended): the render is all-or-nothing: if `downloadPdf`
completes with a draw list, then every filled cell's image embedded
successfully — equivalently, a single embedding failure aborts the whole
render with that error, and no per-cell failure list is ever produced. -/
theorem c8_render_all_or_nothing {F E : Type} (s : Settings)
    (snap : List (Option F)) (embed : F → Except E PdfImg) (ops : List DrawOp)
    (hok : renderPdf s snap embed = .ok ops)
    (r c : ℕ) (hr : r < s.rows) (hc : c < s.cols) (f : F)
    (hf : (snap.get? (r * s.cols + c)).join = some f) :
    ∃ img, embed f = .ok img :=
  renderLoop_ok_embed s (geometry s) embed snap (cellIndices s) ops hok (r, c)
    (mem_cellIndices.mpr ⟨hr, hc⟩) f hf

/-- An embedding that always succeeds with a 2×3 image. -/
def embedAlwaysOk : ℕ → Except Unit PdfImg := fun _ => .ok ⟨2, 3⟩

/-- Witness for the amended C8: a completed render implies the filled cell
embedded. -/
theorem c8_render_all_or_nothing_witness :
    ∃ img, embedAlwaysOk 5 = .ok img :=
  c8_render_all_or_nothing smallSettings [some 5] embedAlwaysOk _ rfl 0 0 (by decide)
    (by decide) 5 rfl

/-- Claim C9 counterexample: for an undetermined type the jsPDF variant's
format dispatch picks the PNG path, not the claimed JPEG default: the data
URL `"data:;base64,AAAA"` declares no image type, and `generatePDF` passes
`"PNG"` to `addImage` for it. -/
theorem c9_dispatch_counterexample :
    jsAddImageFormat "data:;base64,AAAA" = EmbedKind.png ∧
    jsAddImageFormat "data:;base64,AAAA" ≠ EmbedKind.jpg := by
  decide

/-- Claim C9 (amended): the pdf-lib variant embeds via `embedPng` exactly
when the declared type contains `"png"` and falls back to `embedJpg` for
everything else, including a missing type; the jsPDF variant instead passes
`"JPEG"` exactly when the lower-cased data URL contains `"jpeg"` or `"jpg"`
and defaults to `"PNG"` otherwise, including when the type is
undetermined. -/
theorem c9_mime_dispatch :
    getEmbedKind none = EmbedKind.jpg ∧
    (∀ t : String, strIncludes t "png" = true → getEmbedKind (some t) = EmbedKind.png) ∧
    (∀ t : String, strIncludes t "png" = false → getEmbedKind (some t) = EmbedKind.jpg) ∧
    (∀ u : String,
      (strIncludes (lowerStr u) "jpeg" || strIncludes (lowerStr u) "jpg") = true →
      jsAddImageFormat u = EmbedKind.jpg) ∧
    (∀ u : String,
      (strIncludes (lowerStr u) "jpeg" || strIncludes (lowerStr u) "jpg") = false →
      jsAddImageFormat u = EmbedKind.png) := by
  refine ⟨rfl, ?_, ?_, ?_, ?_⟩ <;> intro x hx <;>
    simp [getEmbedKind, jsAddImageFormat, hx]

/-- Witness for the amended C9: a PNG MIME type takes the PNG path in the
pdf-lib variant, and a GIF data URL falls back to PNG in the jsPDF
variant. -/
theorem c9_mime_dispatch_witness :
    getEmbedKind (some "image/png") = EmbedKind.png ∧
    jsAddImageFormat "data:image/gif;base64,AA" = EmbedKind.png :=
  ⟨c9_mime_dispatch.2.1 "image/png" (by decide),
    c9_mime_dispatch.2.2.2.2 "data:image/gif;base64,AA" (by decide)⟩

/-- Claim C10: `clearCell(i)` empties exactly slot `i`, leaves every other
slot unchanged, and revokes the cleared entry's object URL exactly once
(revoking nothing when the slot was already empty). -/
theorem c10_clearCell_frame (state : List (Option CellItem)) (i : ℕ)
    (hi : i < state.length) :
    (clearCell state i).1.get? i = some none ∧
    (∀ j, j ≠ i → (clearCell state i).1.get? j = state.get? j) ∧
    (∀ it, (state.get? i).join = some it → it.url ≠ "" →
      (clearCell state i).2 = [it.url]) ∧
    ((state.get? i).join = none → (clearCell state i).2 = []) := by
  refine ⟨?_, ?_, ?_, ?_⟩
  · show (state.set i none).get? i = some none
    rw [List.get?_set_eq, List.get?_eq_get hi]
    rfl
  · intro j hj
    exact List.get?_set_ne _ _ (Ne.symm hj)
  · intro it hit hurl
    show (match (state.get? i).join with
      | some it => if it.url = "" then [] else [it.url]
      | none => []) = [it.url]
    rw [hit]
    simp [hurl]
  · intro hnone
    show (match (state.get? i).join with
      | some it => if it.url = "" then [] else [it.url]
      | none => []) = []
    rw [hnone]

/-- A two-slot store with a loaded image in slot 0. -/
def storeC10 : List (Option CellItem) := [some ⟨"blob:a", 1⟩, none]

/-- Witness for C10 at `storeC10`, clearing slot 0. -/
theorem c10_clearCell_frame_witness :
    (clearCell storeC10 0).1.get? 0 = some none ∧
    (∀ j, j ≠ 0 → (clearCell storeC10 0).1.get? j = storeC10.get? j) ∧
    (∀ it, (storeC10.get? 0).join = some it → it.url ≠ "" →
      (clearCell storeC10 0).2 = [it.url]) ∧
    ((storeC10.get? 0).join = none → (clearCell storeC10 0).2 = []) :=
  c10_clearCell_frame storeC10 0 (by decide)

end LabelSheet

